import Mathlib

/-!
# memscope-bridge: the Broker (`MemoryBridge.cpp`) and the Forwarder (`HandleForwarder.cpp`)

A shallow embedding of the two programs.  Every call into the operating system
(or into the C++ runtime) is answered by an explicit environment value, so each
function of the source becomes a total, executable Lean function of the answers
it receives.  What a function does to the outside world is recorded as a list
of `Action`s and as the list of handles that are open in its process.

Machine integers are natural numbers reduced modulo `2 ^ width`; bytes are
`UInt8`.  The target is x64 Windows: little-endian, 8-byte pointers and
handles, 4-byte `DWORD`/`ULONG`/`NTSTATUS`.
-/

namespace MemScope

/-! ## Bytes and native integers -/

abbrev Byte := UInt8

/-- Memory image of the `w`-byte unsigned integer `n`, least significant byte first. -/
def toLE (n : Nat) : Nat → List Byte
  | 0 => []
  | w + 1 => UInt8.ofNat (n % 256) :: toLE (n / 256) w

/-- Value of a run of bytes read as one unsigned integer, least significant byte first. -/
def fromLE : List Byte → Nat
  | [] => 0
  | b :: bs => b.toNat + 256 * fromLE bs

/-- The `w`-byte unsigned integer stored at byte offset `off` of `buf`. -/
def fieldAt (buf : List Byte) (off w : Nat) : Nat :=
  fromLE ((buf.drop off).take w)

/-- Reading of a 32-bit word as the signed `LONG` that `NTSTATUS` is. -/
def asLONG (w : Nat) : Int :=
  if w % 2 ^ 32 < 2 ^ 31 then ((w % 2 ^ 32 : Nat) : Int) else ((w % 2 ^ 32 : Nat) : Int) - 2 ^ 32

/-- The macro `NT_SUCCESS(Status)`: `((NTSTATUS)(Status)) >= 0`. -/
def NT_SUCCESS (Status : Nat) : Bool :=
  decide (0 ≤ asLONG Status)

/-! ## Handles -/

/-- Kernel handles the two programs acquire, tagged by what they refer to; the
number is the handle value the system returned. -/
inductive Handle where
  | target (v : Nat)
  | broker (v : Nat)
  | relayPipe (v : Nat)
  | clientPipe (v : Nat)
  | capability (v : Nat)
  deriving DecidableEq, Repr

/-- The call `CloseHandle(h)` on the table of open handles. -/
def CloseHandle (h : Handle) (open_ : List Handle) : List Handle :=
  open_.erase h

/-! ## The target process as the Broker sees it -/

/-- The two fields of `MODULEENTRY32` the Broker looks at. -/
structure MODULEENTRY32 where
  szModule : List Char
  modBaseAddr : Nat

/-- Answers of the system about the target at one moment: `GetProcessId` and
`CreateToolhelp32Snapshot` (`none` is `INVALID_HANDLE_VALUE`; the list is what
`Module32First`/`Module32Next` enumerate, empty when `Module32First` fails). -/
structure TargetView where
  procId : Nat
  snapshot : Option (List MODULEENTRY32)

/-- The constant `modName`. -/
def modName : List Char := ['m', 'a', 'i', 'n', '.', 'd', 'l', 'l']

/-- Whether `_stricmp a b` is zero: equality of the lower-cased strings. -/
def stricmpZero (a b : List Char) : Bool :=
  decide (a.map Char.toLower = b.map Char.toLower)

/-- The function `GetModuleBaseAddress`: base address of the first module whose
name matches, `0` when the process id is zero, the snapshot cannot be taken or
no module matches.  The snapshot handle it opens is closed on each of its
return paths, so the table of open handles is the same before and after. -/
def GetModuleBaseAddress (hProcess : TargetView) (name : List Char) : Nat :=
  if hProcess.procId = 0 then 0
  else
    match hProcess.snapshot with
    | none => 0
    | some entries =>
      match entries.find? (fun e => stricmpZero e.szModule name) with
      | some e => e.modBaseAddr % 2 ^ 64
      | none => 0

/-! ## The client protocol -/

/-- The enumerator `Command::INIT`. -/
def Command.INIT : Byte := 0x01

/-- The enumerator `Command::READ`. -/
def Command.READ : Byte := 0x02

/-- The packed struct `ReadRequest`. -/
structure ReadRequest where
  address : Nat
  size : Nat
  deriving DecidableEq, Repr

/-- The overlay `reinterpret_cast<ReadRequest*>(buffer + 1)`: an 8-byte address at
offset 1 and a 4-byte size at offset 9. -/
def ReadRequest.overlay (buffer : List Byte) : ReadRequest :=
  { address := fieldAt buffer 1 8, size := fieldAt buffer 9 4 }

/-- The packed struct `InitResponse` as the bytes handed to `WriteFile`. -/
def InitResponse.bytes (moduleBaseAddress : Nat) : List Byte :=
  toLE moduleBaseAddress 8

/-- What one call of `NtReadVirtualMemory` does: the status it returns, the
`ULONG` it stores through the byte-count pointer (`0` when it stores nothing,
the variable being initialised to zero) and the bytes it stores at the start of
the caller's buffer. -/
structure NtOutcome where
  status : Nat
  numBytesRead : Nat
  stored : List Byte

/-- The vector `read_buffer(size)` after the primitive ran: `size` zero bytes,
overwritten from the front by what the primitive stored. -/
def read_buffer (size : Nat) (stored : List Byte) : List Byte :=
  stored.take size ++ List.replicate (size - stored.length) 0

/-- The byte `response_status`. -/
def response_status (o : NtOutcome) (size : Nat) : Byte :=
  if NT_SUCCESS o.status && decide (o.numBytesRead % 2 ^ 32 = size) then 0 else 1

/-- Observable operations of the Broker on behalf of a client. -/
inductive Action where
  | ReadFile
  | NtRead (address size : Nat)
  | WriteFile (bytes : List Byte)
  | FlushFileBuffers
  | DisconnectNamedPipe
  deriving DecidableEq, Repr

/-- Result of one `ReadFile` on the client pipe: `FALSE`, or `TRUE` with the bytes
delivered (their number is `bytesRead`). -/
inductive ReadResult where
  | failed
  | ok (data : List Byte)

/-- Everything the outside world answers during one iteration of the session
loop: the `ReadFile` result, the state of the target should the module be
looked up, and the read primitive. -/
structure Turn where
  read : ReadResult
  target : TargetView
  NtRead : Nat → Nat → NtOutcome

/-- Size of the receive buffer `char buffer[1024]`. -/
def bufferSize : Nat := 1024

/-- The effect of a successful `ReadFile(hPipe, buffer, sizeof(buffer), ..)` on
the buffer: the delivered bytes replace its front, the rest keeps its old
contents. -/
def receive (buffer data : List Byte) : List Byte :=
  data.take bufferSize ++ buffer.drop (min data.length bufferSize)

/-- The `DWORD bytesRead` of a successful `ReadFile`. -/
def bytesRead (data : List Byte) : Nat :=
  min data.length bufferSize

/-- The call `WriteFile(hPipe, lpBuffer, nNumberOfBytesToWrite, ..)`: the length
parameter is a `DWORD`, so a length computed as `size_t` is reduced modulo
`2 ^ 32` on the way in, and that many bytes from the start of the buffer are
handed to the pipe. -/
def WriteFile (lpBuffer : List Byte) (nNumberOfBytesToWrite : Nat) : Action :=
  Action.WriteFile (lpBuffer.take (nNumberOfBytesToWrite % 2 ^ 32))

/-- Dispatch on the command byte: the body of the session loop between the
`bytesRead == 0` test and `FlushFileBuffers`. -/
def serveCommand (buffer : List Byte) (t : Turn) : List Action :=
  let cmd := buffer.getD 0 0
  if cmd = Command.INIT then
    let moduleBase := GetModuleBaseAddress t.target modName
    [WriteFile (InitResponse.bytes moduleBase) 8]
  else if cmd = Command.READ then
    let request := ReadRequest.overlay buffer
    let o := t.NtRead request.address request.size
    let filled := read_buffer request.size o.stored
    let st := response_status o request.size
    if st = 0 then
      let response_payload := st :: filled
      [Action.NtRead request.address request.size,
        WriteFile response_payload response_payload.length]
    else
      [Action.NtRead request.address request.size, WriteFile [st] 1]
  else []

/-- One iteration of the `while (ReadFile(..) != FALSE)` loop after `ReadFile`
returned: the actions performed and the buffer for the next iteration, or `none`
when the loop is left. -/
def loopBody (buffer : List Byte) (t : Turn) : List Action × Option (List Byte) :=
  match t.read with
  | ReadResult.failed => ([Action.DisconnectNamedPipe], none)
  | ReadResult.ok data =>
    let buffer2 := receive buffer data
    if bytesRead data = 0 then ([], some buffer2)
    else (serveCommand buffer2 t ++ [Action.FlushFileBuffers], some buffer2)

/-- The function `HandlePythonConnection`, run against the answers `turns`.  Each
call of `ReadFile` is recorded; when the answers run out the function is
blocked in `ReadFile`, and it has returned exactly when the last action is
`DisconnectNamedPipe`. -/
def HandlePythonConnection (buffer : List Byte) : List Turn → List Action
  | [] => [Action.ReadFile]
  | t :: rest =>
    Action.ReadFile ::
      match loopBody buffer t with
      | (acts, none) => acts
      | (acts, some buffer2) => acts ++ HandlePythonConnection buffer2 rest

/-! ## The Broker process (`MemoryBridge.cpp`, `main`) -/

/-- Answers of the system while the Broker waits for the Forwarder:
`CreateNamedPipeA` on the relay pipe (`none` is `INVALID_HANDLE_VALUE`),
`ConnectNamedPipe`, and the `ReadFile` of the handle value. -/
structure RelayEnv where
  create : Option Nat
  connect : Bool
  read : ReadResult

/-- The function `ReceiveHandleFromForwarder`: the received handle value (`0` is
`NULL`) and the table of open handles afterwards. -/
def ReceiveHandleFromForwarder (env : RelayEnv) (handles : List Handle) : Nat × List Handle :=
  match env.create with
  | none => (0, handles)
  | some hPipe =>
    let opened := Handle.relayPipe hPipe :: handles
    if env.connect = false then (0, CloseHandle (Handle.relayPipe hPipe) opened)
    else
      match env.read with
      | ReadResult.failed => (0, CloseHandle (Handle.relayPipe hPipe) opened)
      | ReadResult.ok data =>
        if min data.length 8 ≠ 8 then (0, CloseHandle (Handle.relayPipe hPipe) opened)
        else (fromLE (data.take 8), CloseHandle (Handle.relayPipe hPipe) opened)

/-- The loop `while (moduleBaseAddress == 0)` of `main`, one view of the target
per poll: the first non-zero lookup, `none` while every poll so far gave zero. -/
def pollModule : List TargetView → Option Nat
  | [] => none
  | v :: vs =>
    let moduleBaseAddress := GetModuleBaseAddress v modName
    if moduleBaseAddress = 0 then pollModule vs else some moduleBaseAddress

/-- Where the Broker's control is.  The states `idle`, `listening` and `active`
make up the serve loop: `idle` is the top of `while (true)` (about to create the
client pipe), `listening` is blocked in `ConnectNamedPipe`, `active` is inside
`HandlePythonConnection`, blocked in `ReadFile`. -/
inductive Phase where
  | waitingModule
  | idle
  | listening (hPythonPipe : Nat)
  | active (hPythonPipe : Nat) (buffer : List Byte)
  | exited (code : Nat)
  deriving DecidableEq, Repr

/-- State of the Broker process: control point, open handles, the local variable
`moduleBaseAddress` of `main`, and what was done on the client pipe so far. -/
structure BrokerState where
  phase : Phase
  handles : List Handle
  moduleBaseAddress : Nat
  trace : List Action

/-- Answers of the system inside the serve loop: `CreateNamedPipeA` on the client
pipe returned, `ConnectNamedPipe` returned (with the contents the uninitialised
stack buffer of the coming session happens to have), `ReadFile` returned. -/
inductive ServeEvent where
  | created (h : Option Nat)
  | connected (ok : Bool) (stack : List Byte)
  | frame (t : Turn)

/-- One step of the serve loop of `main`; `none` when the event cannot occur at
the current control point. -/
def serveStep (s : BrokerState) : ServeEvent → Option BrokerState
  | ServeEvent.created h =>
    match s.phase with
    | Phase.idle =>
      match h with
      | none => some { s with phase := Phase.exited 1 }
      | some p => some { s with phase := Phase.listening p, handles := Handle.clientPipe p :: s.handles }
    | _ => none
  | ServeEvent.connected ok stack =>
    match s.phase with
    | Phase.listening p =>
      if ok then some { s with phase := Phase.active p stack, trace := s.trace ++ [Action.ReadFile] }
      else some { s with phase := Phase.idle, handles := CloseHandle (Handle.clientPipe p) s.handles }
    | _ => none
  | ServeEvent.frame t =>
    match s.phase with
    | Phase.active p buffer =>
      match loopBody buffer t with
      | (acts, none) =>
        some { s with phase := Phase.idle, handles := CloseHandle (Handle.clientPipe p) s.handles,
                      trace := s.trace ++ acts }
      | (acts, some buffer2) =>
        some { s with phase := Phase.active p buffer2, trace := s.trace ++ acts ++ [Action.ReadFile] }
    | _ => none

/-- The serve loop run against a sequence of answers; it stops where the process
has exited or the next answer does not fit the control point. -/
def serveLoop (s : BrokerState) : List ServeEvent → BrokerState
  | [] => s
  | e :: es =>
    match serveStep s e with
    | some s2 => serveLoop s2 es
    | none => s

/-- Everything the outside world answers to one run of the Broker. -/
structure BrokerEnv where
  NtReadResolved : Bool
  relay : RelayEnv
  polls : List TargetView
  serve : List ServeEvent

/-- The function `main` of the Broker. -/
def MemoryBridge.main (env : BrokerEnv) : BrokerState :=
  if env.NtReadResolved = false then
    { phase := Phase.exited 1, handles := [], moduleBaseAddress := 0, trace := [] }
  else
    let received := ReceiveHandleFromForwarder env.relay []
    let hProcess := received.1
    if hProcess = 0 then
      { phase := Phase.exited 1, handles := received.2, moduleBaseAddress := 0, trace := [] }
    else
      let held := Handle.capability hProcess :: received.2
      match pollModule env.polls with
      | none => { phase := Phase.waitingModule, handles := held, moduleBaseAddress := 0, trace := [] }
      | some base =>
        serveLoop { phase := Phase.idle, handles := held, moduleBaseAddress := base, trace := [] } env.serve

/-! ## The Forwarder process (`HandleForwarder.cpp`) -/

/-- The two fields of `PROCESSENTRY32` the Forwarder looks at. -/
structure PROCESSENTRY32 where
  szExeFile : List Char
  th32ProcessID : Nat

/-- The constant `targetProcName`. -/
def targetProcName : List Char :=
  ['e', 'x', 'a', 'm', 'p', 'l', 'e', '_', 'a', 'p', 'p', '.', 'e', 'x', 'e']

/-- The function `FindProcessId` on one process snapshot (`none` is
`INVALID_HANDLE_VALUE`); its snapshot handle is closed on each return path. -/
def FindProcessId (snapshot : Option (List PROCESSENTRY32)) (processName : List Char) : Nat :=
  match snapshot with
  | none => 0
  | some entries =>
    match entries.find? (fun e => decide (processName = e.szExeFile)) with
    | some e => e.th32ProcessID % 2 ^ 32
    | none => 0

/-- The loop `while (targetPid == 0)`, one snapshot per poll. -/
def pollTarget : List (Option (List PROCESSENTRY32)) → Option Nat
  | [] => none
  | v :: vs =>
    let targetPid := FindProcessId v targetProcName
    if targetPid = 0 then pollTarget vs else some targetPid

/-- The loop `while (hPipe == INVALID_HANDLE_VALUE)`, one `CreateFileA` answer per
attempt. -/
def connectPipe : List (Option Nat) → Option Nat
  | [] => none
  | none :: rest => connectPipe rest
  | some hPipe :: _ => some hPipe

/-- How a run of the Forwarder stands: returned from `main` with a code, ended by
an uncaught exception, or still inside one of its polling loops. -/
inductive Exit where
  | code (n : Nat)
  | terminated
  | polling
  deriving DecidableEq, Repr

/-- Everything the outside world answers to one run of the Forwarder: `argc`, the
value of `std::stoul(argv[1])` (`none` when it throws), the process snapshots,
the two `OpenProcess` calls (`none` is `NULL`), `DuplicateHandle` (the new handle
value, `none` on failure), the `CreateFileA` attempts and `WriteFile`. -/
structure ForwarderEnv where
  argc : Nat
  stoul : Option Nat
  processes : List (Option (List PROCESSENTRY32))
  OpenTarget : Option Nat
  OpenBroker : Option Nat
  DuplicateHandle : Option Nat
  CreateFileA : List (Option Nat)
  WriteFile : Bool

/-- Outcome of a run of the Forwarder: how it ended, the handles still open in
its own table, and the bytes the relay pipe accepted (`none` when the write did
not succeed or was never reached). -/
structure ForwarderResult where
  exit : Exit
  handles : List Handle
  relayed : Option (List Byte)
  deriving DecidableEq, Repr

/-- The function `main` of the Forwarder. -/
def HandleForwarder.main (env : ForwarderEnv) : ForwarderResult :=
  if env.argc < 2 then { exit := Exit.code 1, handles := [], relayed := none }
  else
    match env.stoul with
    | none => { exit := Exit.terminated, handles := [], relayed := none }
    | some parsed =>
      let bridgePid := parsed % 2 ^ 32
      if bridgePid = 0 then { exit := Exit.code 1, handles := [], relayed := none }
      else
        match pollTarget env.processes with
        | none => { exit := Exit.polling, handles := [], relayed := none }
        | some _ =>
          match env.OpenTarget with
          | none => { exit := Exit.code 1, handles := [], relayed := none }
          | some hTargetOriginal =>
            let h1 := [Handle.target hTargetOriginal]
            match env.OpenBroker with
            | none =>
              { exit := Exit.code 1, handles := CloseHandle (Handle.target hTargetOriginal) h1,
                relayed := none }
            | some hMemoryBridge =>
              let h2 := Handle.broker hMemoryBridge :: h1
              match env.DuplicateHandle with
              | none =>
                { exit := Exit.code 1,
                  handles := CloseHandle (Handle.broker hMemoryBridge)
                    (CloseHandle (Handle.target hTargetOriginal) h2),
                  relayed := none }
              | some hTargetDuplicated =>
                match connectPipe env.CreateFileA with
                | none => { exit := Exit.polling, handles := h2, relayed := none }
                | some hPipe =>
                  let h3 := Handle.relayPipe hPipe :: h2
                  let relayed := if env.WriteFile then some (toLE hTargetDuplicated 8) else none
                  { exit := Exit.code 0,
                    handles := CloseHandle (Handle.relayPipe hPipe)
                      (CloseHandle (Handle.broker hMemoryBridge)
                        (CloseHandle (Handle.target hTargetOriginal) h3)),
                    relayed := relayed }

/-- Whether the control point lies inside the serve loop of `main`. -/
def Phase.serving : Phase → Bool
  | Phase.idle => true
  | Phase.listening _ => true
  | Phase.active _ _ => true
  | Phase.waitingModule => false
  | Phase.exited _ => false

/-- Events that belong to one client session: the outcome of the accept and the
outcome of each read of a frame (a disconnect shows as a failed read). -/
def ServeEvent.sessionLevel : ServeEvent → Bool
  | ServeEvent.connected _ _ => true
  | ServeEvent.frame _ => true
  | ServeEvent.created _ => false

/-- Whether an action is a `WriteFile` on the client pipe. -/
def Action.isWriteFile : Action → Bool
  | Action.WriteFile _ => true
  | _ => false

/-- Whether an action is a call of the read primitive. -/
def Action.isNtRead : Action → Bool
  | Action.NtRead _ _ => true
  | _ => false

/-! ## Sample inputs

The end-to-end scenario of the specification: `main.dll` is loaded in the
target at `0x140000000`, the four bytes at `0x140000010` are readable, every
other address is unmapped. -/

/-- Target with `main.dll` loaded at `0x140000000` (listed under another
capitalisation, as module lists do). -/
def scenarioTarget : TargetView :=
  { procId := 4242,
    snapshot := some
      [{ szModule := ['n', 't', 'd', 'l', 'l', '.', 'd', 'l', 'l'], modBaseAddr := 0x7FFA10000000 },
       { szModule := ['M', 'a', 'i', 'n', '.', 'D', 'L', 'L'], modBaseAddr := 0x140000000 }] }

/-- The same target after `main.dll` was unloaded. -/
def unloadedTarget : TargetView :=
  { procId := 4242,
    snapshot := some
      [{ szModule := ['n', 't', 'd', 'l', 'l', '.', 'd', 'l', 'l'], modBaseAddr := 0x7FFA10000000 }] }

/-- Read primitive of the scenario: four bytes at `0x140000010` are readable,
anything else fails with `STATUS_ACCESS_VIOLATION` and stores nothing. -/
def scenarioNtRead (address size : Nat) : NtOutcome :=
  if address = 0x140000010 ∧ size = 4 then
    { status := 0, numBytesRead := 4, stored := [0xDE, 0xAD, 0xBE, 0xEF] }
  else
    { status := 0xC0000005, numBytesRead := 0, stored := [] }

/-- Read primitive over a target whose memory is readable everywhere and holds
zero bytes: every read succeeds in full. -/
def zeroFilledNtRead (_address size : Nat) : NtOutcome :=
  { status := 0, numBytesRead := size, stored := List.replicate size 0 }

/-- A READ frame asking for `0xFFFFFFFF` bytes at `0x140000000`. -/
def fullSizeReadFrame : List Byte :=
  Command.READ :: (toLE 0x140000000 8 ++ toLE 0xFFFFFFFF 4)

/-- Contents of the receive buffer before the first frame: left-over stack
bytes, here a READ frame for address `0x10` and size `2` followed by filler. -/
def staleBuffer : List Byte :=
  [0x02, 0x10, 0, 0, 0, 0, 0, 0, 0, 0x02, 0, 0, 0] ++ List.replicate 1011 0xCC

/-- The READ frame of the scenario: address `0x140000010`, size `4`. -/
def scenarioReadFrame : List Byte :=
  Command.READ :: (toLE 0x140000010 8 ++ toLE 4 4)

/-- The same target after `main.dll` was loaded again, at another address. -/
def relocatedTarget : TargetView :=
  { procId := 4242,
    snapshot := some
      [{ szModule := ['n', 't', 'd', 'l', 'l', '.', 'd', 'l', 'l'], modBaseAddr := 0x7FFA10000000 },
       { szModule := ['m', 'a', 'i', 'n', '.', 'd', 'l', 'l'], modBaseAddr := 0x150000000 }] }

/-- A Broker run: the capability `0x1A4` arrives, `main.dll` is found at the
second poll, one client connects and sends INIT twice, the module having been
reloaded elsewhere in between. -/
def reloadRun : BrokerEnv :=
  { NtReadResolved := true,
    relay := { create := some 5, connect := true, read := ReadResult.ok (toLE 0x1A4 8) },
    polls := [unloadedTarget, scenarioTarget],
    serve :=
      [ServeEvent.created (some 9), ServeEvent.connected true staleBuffer,
       ServeEvent.frame
         { read := ReadResult.ok [Command.INIT], target := scenarioTarget, NtRead := scenarioNtRead },
       ServeEvent.frame
         { read := ReadResult.ok [Command.INIT], target := relocatedTarget, NtRead := scenarioNtRead }] }

/-- A Broker run: the capability `0x1A4` arrives, the module is found, one
client is served until it disconnects, and then the client pipe cannot be
created again. -/
def pipeFailureRun : BrokerEnv :=
  { NtReadResolved := true,
    relay := { create := some 5, connect := true, read := ReadResult.ok (toLE 0x1A4 8) },
    polls := [scenarioTarget],
    serve :=
      [ServeEvent.created (some 9), ServeEvent.connected true staleBuffer,
       ServeEvent.frame
         { read := ReadResult.failed, target := scenarioTarget, NtRead := scenarioNtRead },
       ServeEvent.created none] }

/-- A Forwarder run: argument `1234`, the target is found at the second poll,
both processes open, the handle is duplicated as `0x1A4`, the relay pipe opens
at the second attempt, and the write of the handle value fails. -/
def writeFailureRun : ForwarderEnv :=
  { argc := 2,
    stoul := some 1234,
    processes := [some [], some [{ szExeFile := targetProcName, th32ProcessID := 4242 }]],
    OpenTarget := some 0x64,
    OpenBroker := some 0x68,
    DuplicateHandle := some 0x1A4,
    CreateFileA := [none, some 0x6C],
    WriteFile := false }

/-! ## Auxiliary facts -/

theorem toNat_ofNat_mod (n : Nat) : (UInt8.ofNat (n % 256)).toNat = n % 256 := by
  simp [UInt8.toNat, UInt8.ofNat, Fin.ofNat]

theorem length_toLE (w : Nat) : ∀ n : Nat, (toLE n w).length = w := by
  induction w with
  | zero => intro n; rfl
  | succ k ih => intro n; simp [toLE, ih]

theorem fromLE_toLE (w : Nat) : ∀ n : Nat, fromLE (toLE n w) = n % 256 ^ w := by
  induction w with
  | zero => intro n; simp [toLE, fromLE, Nat.mod_one]
  | succ k ih =>
    intro n
    simp only [toLE, fromLE, ih, toNat_ofNat_mod]
    rw [pow_succ, Nat.mul_comm (256 ^ k) 256, Nat.mod_mul]

theorem fieldAt_zero (l : List Byte) (off : Nat) : fieldAt l off 0 = 0 := by
  simp [fieldAt, fromLE]

theorem fieldAt_succ (l : List Byte) (off w : Nat) :
    fieldAt l off (w + 1) = (l.getD off 0).toNat + 256 * fieldAt l (off + 1) w := by
  unfold fieldAt
  rcases h : l.drop off with _ | ⟨x, xs⟩
  · have hlen : l.length ≤ off := List.drop_eq_nil_iff.mp h
    have h2 : l.drop (off + 1) = [] := List.drop_eq_nil_iff.mpr (by omega)
    have h3 : l.getD off 0 = 0 := by
      rw [List.getD_eq_getElem?_getD, List.getElem?_eq_none hlen]; rfl
    rw [h2, h3]; simp [fromLE]
  · have hx : l.getD off 0 = x := by
      rw [List.getD_eq_getElem?_getD, ← List.head?_drop, h]; rfl
    have hxs : l.drop (off + 1) = xs := by
      have h4 := List.drop_drop 1 off l
      rw [h] at h4
      simpa [Nat.add_comm] using h4.symm
    rw [hx, hxs]; simp [fromLE]

theorem length_read_buffer (size : Nat) (stored : List Byte) :
    (read_buffer size stored).length = size := by
  simp [read_buffer]; omega

theorem bytesRead_cons (c : Byte) (tail : List Byte) : bytesRead (c :: tail) ≠ 0 := by
  simp [bytesRead, bufferSize]

theorem loopBody_served (buffer : List Byte) (c : Byte) (tail : List Byte) (v : TargetView)
    (nt : Nat → Nat → NtOutcome) :
    loopBody buffer { read := ReadResult.ok (c :: tail), target := v, NtRead := nt } =
      (serveCommand (receive buffer (c :: tail))
          { read := ReadResult.ok (c :: tail), target := v, NtRead := nt } ++
        [Action.FlushFileBuffers], some (receive buffer (c :: tail))) := by
  simp only [loopBody, if_neg (bytesRead_cons c tail)]


theorem getD_receive_cons (buffer : List Byte) (c : Byte) (tail : List Byte) :
    (receive buffer (c :: tail)).getD 0 0 = c := by
  simp [receive, bufferSize]

theorem HandlePythonConnection_served (buffer : List Byte) (c : Byte) (tail : List Byte)
    (v : TargetView) (nt : Nat → Nat → NtOutcome) (rest : List Turn) :
    HandlePythonConnection buffer
        ({ read := ReadResult.ok (c :: tail), target := v, NtRead := nt } :: rest) =
      Action.ReadFile ::
        (serveCommand (receive buffer (c :: tail))
            { read := ReadResult.ok (c :: tail), target := v, NtRead := nt } ++
          Action.FlushFileBuffers :: HandlePythonConnection (receive buffer (c :: tail)) rest) := by
  simp [HandlePythonConnection, loopBody_served]

theorem response_status_eq_zero_iff (o : NtOutcome) (size : Nat) :
    response_status o size = 0 ↔ (0 ≤ asLONG o.status ∧ o.numBytesRead % 2 ^ 32 = size) := by
  unfold response_status NT_SUCCESS
  by_cases h1 : 0 ≤ asLONG o.status <;> by_cases h2 : o.numBytesRead % 2 ^ 32 = size <;>
    simp [h1, h2]

theorem response_status_ne_zero (o : NtOutcome) (size : Nat)
    (h : ¬ (0 ≤ asLONG o.status ∧ o.numBytesRead % 2 ^ 32 = size)) :
    response_status o size = 1 := by
  unfold response_status NT_SUCCESS
  by_cases h1 : 0 ≤ asLONG o.status <;> by_cases h2 : o.numBytesRead % 2 ^ 32 = size <;>
    simp_all

theorem WriteFile_one (st : Byte) : WriteFile [st] 1 = Action.WriteFile [st] := by
  simp [WriteFile]

theorem WriteFile_payload (size : Nat) (stored : List Byte) :
    WriteFile (0 :: read_buffer size stored) (0 :: read_buffer size stored).length =
      Action.WriteFile ((0 :: read_buffer size stored).take ((size + 1) % 2 ^ 32)) := by
  simp [WriteFile, length_read_buffer]

theorem serveCommand_READ (b : List Byte) (t : Turn) (h : b.getD 0 0 = Command.READ) :
    serveCommand b t =
      [Action.NtRead (ReadRequest.overlay b).address (ReadRequest.overlay b).size,
        if response_status (t.NtRead (ReadRequest.overlay b).address (ReadRequest.overlay b).size)
              (ReadRequest.overlay b).size = 0
          then WriteFile
              (0 :: read_buffer (ReadRequest.overlay b).size
                (t.NtRead (ReadRequest.overlay b).address (ReadRequest.overlay b).size).stored)
              (0 :: read_buffer (ReadRequest.overlay b).size
                (t.NtRead (ReadRequest.overlay b).address (ReadRequest.overlay b).size).stored).length
          else Action.WriteFile [1]] := by
  have hne : Command.READ ≠ Command.INIT := by decide
  unfold serveCommand
  simp only [h, if_neg hne, if_true]
  by_cases hs : response_status (t.NtRead (ReadRequest.overlay b).address (ReadRequest.overlay b).size)
      (ReadRequest.overlay b).size = 0
  · simp [hs]
  · have h1 : response_status (t.NtRead (ReadRequest.overlay b).address (ReadRequest.overlay b).size)
        (ReadRequest.overlay b).size = 1 :=
      response_status_ne_zero _ _ (fun hc => hs ((response_status_eq_zero_iff _ _).mpr hc))
    simp [h1, WriteFile_one]

theorem getElem?_read_buffer (size : Nat) (stored : List Byte) (i : Nat) (hi : i < size) :
    (read_buffer size stored)[i]? = some (stored.getD i 0) := by
  unfold read_buffer
  by_cases h : i < stored.length
  · rw [List.getElem?_append_left (by simp; omega)]
    simp [List.getElem?_take, hi, List.getD_eq_getElem?_getD, List.getElem?_eq_getElem h]
  · have hlen : (stored.take size).length ≤ i := by simp; omega
    rw [List.getElem?_append_right hlen]
    have h0 : stored.getD i 0 = 0 := by
      rw [List.getD_eq_getElem?_getD, List.getElem?_eq_none (by omega)]; rfl
    rw [h0, List.getElem?_replicate]
    simp
    omega

/-! ## The claims -/

/-- What a successful READ does: the read is classified as success exactly when
the status is non-negative as a signed 32-bit integer and the byte count
equals the requested size; the handler then hands `0x00` followed by the
filled buffer to `WriteFile` with the length `size + 1` reduced modulo
`2 ^ 32`, which is all `1 + size` bytes whenever `size + 1 < 2 ^ 32`. -/
theorem read_success_served (buffer tail : List Byte) (v : TargetView)
    (nt : Nat → Nat → NtOutcome) (rest : List Turn) (request : ReadRequest) (o : NtOutcome)
    (hreq : request = ReadRequest.overlay (receive buffer (Command.READ :: tail)))
    (ho : o = nt request.address request.size) :
    (response_status o request.size = 0 ↔
        (0 ≤ asLONG o.status ∧ o.numBytesRead % 2 ^ 32 = request.size)) ∧
    ((0 ≤ asLONG o.status ∧ o.numBytesRead % 2 ^ 32 = request.size) →
      HandlePythonConnection buffer
          ({ read := ReadResult.ok (Command.READ :: tail), target := v, NtRead := nt } :: rest) =
        Action.ReadFile :: Action.NtRead request.address request.size ::
          Action.WriteFile
            ((0 :: read_buffer request.size o.stored).take ((request.size + 1) % 2 ^ 32)) ::
          Action.FlushFileBuffers ::
          HandlePythonConnection (receive buffer (Command.READ :: tail)) rest) ∧
    (request.size + 1 < 2 ^ 32 →
      (0 :: read_buffer request.size o.stored).take ((request.size + 1) % 2 ^ 32) =
        0 :: read_buffer request.size o.stored) ∧
    (0 :: read_buffer request.size o.stored).length = 1 + request.size ∧
    (∀ i, i < request.size → (read_buffer request.size o.stored)[i]? = some (o.stored.getD i 0)) := by
  subst hreq
  subst ho
  have hcmd := getD_receive_cons buffer Command.READ tail
  refine ⟨response_status_eq_zero_iff _ _, ?_, ?_, ?_, ?_⟩
  · intro hok
    have hs := (response_status_eq_zero_iff _ _).mpr hok
    rw [HandlePythonConnection_served, serveCommand_READ _ _ hcmd, if_pos hs, WriteFile_payload]
    rfl
  · intro hlt
    rw [Nat.mod_eq_of_lt hlt]
    exact List.take_of_length_le (by simp [length_read_buffer])
  · simp [length_read_buffer]; omega
  · intro i hi
    exact getElem?_read_buffer _ _ i hi

/-- C1 (the code at the failing input): a READ of `0xFFFFFFFF` bytes that the
primitive completes in full is classified as success, the response built is
`0x00` followed by the `0xFFFFFFFF` bytes read, and its length `0x100000000`
becomes `0` in the `DWORD` length parameter of `WriteFile`: no byte is written
to the client. -/
theorem C1_full_size_read_writes_nothing :
    HandlePythonConnection staleBuffer
        [{ read := ReadResult.ok fullSizeReadFrame, target := scenarioTarget,
           NtRead := zeroFilledNtRead }] =
      [Action.ReadFile, Action.NtRead 0x140000000 0xFFFFFFFF, Action.WriteFile [],
        Action.FlushFileBuffers, Action.ReadFile] := by
  have h := (read_success_served staleBuffer (toLE 0x140000000 8 ++ toLE 0xFFFFFFFF 4)
    scenarioTarget zeroFilledNtRead [] { address := 0x140000000, size := 0xFFFFFFFF }
    (zeroFilledNtRead 0x140000000 0xFFFFFFFF) (by decide) rfl).2.1 ⟨by decide, by decide⟩
  have hlen : ((0xFFFFFFFF : Nat) + 1) % 2 ^ 32 = 0 := by norm_num
  rw [hlen, List.take_zero] at h
  exact h

/-- C2: when the read primitive reports a failure status, or a byte count
different from the requested size, the handler writes exactly the one byte
`0x01` and nothing after it, flushes, and goes on to read the next frame; the
Broker stays in the same session with the same handles. -/
theorem C2_read_failure (buffer tail : List Byte) (v : TargetView)
    (nt : Nat → Nat → NtOutcome) (rest : List Turn) (request : ReadRequest) (o : NtOutcome)
    (s : BrokerState) (p : Nat)
    (hreq : request = ReadRequest.overlay (receive buffer (Command.READ :: tail)))
    (ho : o = nt request.address request.size)
    (hfail : ¬ (0 ≤ asLONG o.status) ∨ o.numBytesRead % 2 ^ 32 ≠ request.size)
    (hs : s.phase = Phase.active p buffer) :
    HandlePythonConnection buffer
        ({ read := ReadResult.ok (Command.READ :: tail), target := v, NtRead := nt } :: rest) =
      Action.ReadFile :: Action.NtRead request.address request.size ::
        Action.WriteFile [1] :: Action.FlushFileBuffers ::
        HandlePythonConnection (receive buffer (Command.READ :: tail)) rest ∧
    serveStep s (ServeEvent.frame
        { read := ReadResult.ok (Command.READ :: tail), target := v, NtRead := nt }) =
      some { s with
        phase := Phase.active p (receive buffer (Command.READ :: tail)),
        trace := s.trace ++ [Action.NtRead request.address request.size, Action.WriteFile [1],
          Action.FlushFileBuffers] ++ [Action.ReadFile] } := by
  subst hreq
  subst ho
  have hcmd := getD_receive_cons buffer Command.READ tail
  have h1 := response_status_ne_zero _ _ (fun hc => hfail.elim (fun h => h hc.1) (fun h => h hc.2))
  constructor
  · rw [HandlePythonConnection_served, serveCommand_READ _ _ hcmd]
    simp [h1]
  · simp only [serveStep, hs, loopBody_served, serveCommand_READ _ _ hcmd]
    simp [h1]


/-- Witness of C2: a READ of an unmapped address. -/
theorem C2_read_failure_witness :
    HandlePythonConnection staleBuffer
        [{ read := ReadResult.ok (Command.READ :: (toLE 0xDEAD0000 8 ++ toLE 16 4)),
           target := scenarioTarget, NtRead := scenarioNtRead }] =
      [Action.ReadFile, Action.NtRead 0xDEAD0000 16, Action.WriteFile [0x01],
        Action.FlushFileBuffers, Action.ReadFile] :=
  (C2_read_failure staleBuffer (toLE 0xDEAD0000 8 ++ toLE 16 4) scenarioTarget scenarioNtRead []
    { address := 0xDEAD0000, size := 16 } (scenarioNtRead 0xDEAD0000 16)
    { phase := Phase.active 9 staleBuffer, handles := [Handle.clientPipe 9, Handle.capability 420],
      moduleBaseAddress := 0x140000000, trace := [Action.ReadFile] } 9
    (by decide) rfl (Or.inl (by decide)) rfl).1

theorem receive_frame (buffer tail : List Byte) (c : Byte) (h : tail.length = 12) :
    receive buffer (c :: tail) = c :: (tail ++ buffer.drop 13) := by
  have h1 : (c :: tail).take bufferSize = c :: tail :=
    List.take_of_length_le (by simp [bufferSize, h])
  unfold receive
  rw [h1]
  simp [bufferSize, h]

theorem overlay_frame (rest : List Byte) (c : Byte) (address size : Nat) :
    ReadRequest.overlay (c :: ((toLE address 8 ++ toLE size 4) ++ rest)) =
      { address := address % 2 ^ 64, size := size % 2 ^ 32 } := by
  have h8 : (toLE address 8).length = 8 := length_toLE 8 address
  have h4 : (toLE size 4).length = 4 := length_toLE 4 size
  have ha : fieldAt (c :: ((toLE address 8 ++ toLE size 4) ++ rest)) 1 8 = address % 2 ^ 64 := by
    unfold fieldAt
    rw [List.drop_succ_cons, List.drop_zero, List.append_assoc, List.take_left' h8, fromLE_toLE]
    norm_num
  have hs : fieldAt (c :: ((toLE address 8 ++ toLE size 4) ++ rest)) 9 4 = size % 2 ^ 32 := by
    unfold fieldAt
    rw [List.drop_succ_cons, List.append_assoc, List.drop_left' h8, List.take_left' h4,
      fromLE_toLE]
    norm_num
  simp only [ReadRequest.overlay, ha, hs]

/-- C3: for a frame starting with the READ byte the read is issued with the
address formed from buffer bytes 1..8 and the size formed from buffer bytes
9..12, least significant byte first, whatever number of bytes the channel read
delivered; a request encoded as `0x02`, 8 address bytes and 4 size bytes is 13
bytes long and decodes to the same address and size; and when only the command
byte arrived the fields are what the buffer held before. -/
theorem C3_read_request_layout (buffer tail b : List Byte) (v : TargetView)
    (nt : Nat → Nat → NtOutcome) (address size : Nat)
    (hb : b = receive buffer (Command.READ :: tail))
    (ha : address < 2 ^ 64) (hs : size < 2 ^ 32) :
    (∃ response,
      loopBody buffer { read := ReadResult.ok (Command.READ :: tail), target := v, NtRead := nt } =
        ([Action.NtRead
            ((b.getD 1 0).toNat + 2 ^ 8 * (b.getD 2 0).toNat + 2 ^ 16 * (b.getD 3 0).toNat +
              2 ^ 24 * (b.getD 4 0).toNat + 2 ^ 32 * (b.getD 5 0).toNat +
              2 ^ 40 * (b.getD 6 0).toNat + 2 ^ 48 * (b.getD 7 0).toNat +
              2 ^ 56 * (b.getD 8 0).toNat)
            ((b.getD 9 0).toNat + 2 ^ 8 * (b.getD 10 0).toNat + 2 ^ 16 * (b.getD 11 0).toNat +
              2 ^ 24 * (b.getD 12 0).toNat),
          Action.WriteFile response, Action.FlushFileBuffers], some b)) ∧
    (Command.READ :: (toLE address 8 ++ toLE size 4)).length = 1 + 12 ∧
    ReadRequest.overlay (receive buffer (Command.READ :: (toLE address 8 ++ toLE size 4))) =
      { address := address, size := size } ∧
    ReadRequest.overlay (receive buffer [Command.READ]) = ReadRequest.overlay buffer := by
  refine ⟨?_, ?_, ?_, ?_⟩
  · have hcmd : b.getD 0 0 = Command.READ := by rw [hb]; exact getD_receive_cons _ _ _
    have haddr : (ReadRequest.overlay b).address =
        (b.getD 1 0).toNat + 2 ^ 8 * (b.getD 2 0).toNat + 2 ^ 16 * (b.getD 3 0).toNat +
          2 ^ 24 * (b.getD 4 0).toNat + 2 ^ 32 * (b.getD 5 0).toNat +
          2 ^ 40 * (b.getD 6 0).toNat + 2 ^ 48 * (b.getD 7 0).toNat +
          2 ^ 56 * (b.getD 8 0).toNat := by
      simp only [ReadRequest.overlay, fieldAt_succ, fieldAt_zero]
      ring
    have hsize : (ReadRequest.overlay b).size =
        (b.getD 9 0).toNat + 2 ^ 8 * (b.getD 10 0).toNat + 2 ^ 16 * (b.getD 11 0).toNat +
          2 ^ 24 * (b.getD 12 0).toNat := by
      simp only [ReadRequest.overlay, fieldAt_succ, fieldAt_zero]
      ring
    rw [loopBody_served, ← hb, serveCommand_READ _ _ hcmd, ← haddr, ← hsize]
    unfold WriteFile
    split <;> exact ⟨_, rfl⟩
  · simp [length_toLE]
  · have hlen : (toLE address 8 ++ toLE size 4).length = 12 := by simp [length_toLE]
    rw [receive_frame _ _ _ hlen, overlay_frame, Nat.mod_eq_of_lt ha, Nat.mod_eq_of_lt hs]
  · simp only [ReadRequest.overlay, fieldAt, receive, bufferSize]
    simp

/-- Witness of C3: the scenario's READ frame, received over a buffer holding
older bytes. -/
theorem C3_read_request_layout_witness :
    ReadRequest.overlay (receive staleBuffer scenarioReadFrame) =
      { address := 0x140000010, size := 4 } :=
  (C3_read_request_layout staleBuffer (toLE 0x140000010 8 ++ toLE 4 4)
    (receive staleBuffer scenarioReadFrame) scenarioTarget scenarioNtRead 0x140000010 4
    rfl (by decide) (by decide)).2.2.1


theorem serveCommand_INIT (b : List Byte) (t : Turn) (h : b.getD 0 0 = Command.INIT) :
    serveCommand b t = [Action.WriteFile (InitResponse.bytes (GetModuleBaseAddress t.target modName))] := by
  have htake : (InitResponse.bytes (GetModuleBaseAddress t.target modName)).take (8 % 2 ^ 32) =
      InitResponse.bytes (GetModuleBaseAddress t.target modName) :=
    List.take_of_length_le (by simp [InitResponse.bytes, length_toLE])
  unfold serveCommand
  simp only [h, if_true, WriteFile, htake]

theorem GetModuleBaseAddress_lt (v : TargetView) (name : List Char) :
    GetModuleBaseAddress v name < 2 ^ 64 := by
  unfold GetModuleBaseAddress
  split
  · norm_num
  · split
    · norm_num
    · split
      · exact Nat.mod_lt _ (by norm_num)
      · norm_num

theorem getElem?_toLE (w : Nat) : ∀ (n i : Nat), i < w →
    (toLE n w)[i]? = some (UInt8.ofNat (n / 256 ^ i % 256)) := by
  induction w with
  | zero => intro n i hi; omega
  | succ k ih =>
    intro n i hi
    cases i with
    | zero => simp [toLE]
    | succ j =>
      have hj : j < k := by omega
      simp only [toLE, List.getElem?_cons_succ, ih (n / 256) j hj]
      rw [Nat.div_div_eq_div_mul, pow_succ, Nat.mul_comm (256 ^ j) 256]

/-- Counterexample to C4: in one Broker run the base resolved during bootstrap is
`0x140000000`, the first INIT is answered with it, and the second INIT, served
after the module was reloaded, is answered with `0x150000000`. -/
theorem C4_counterexample :
    (MemoryBridge.main reloadRun).moduleBaseAddress = 0x140000000 ∧
    (MemoryBridge.main reloadRun).trace =
      [Action.ReadFile,
        Action.WriteFile [0x00, 0x00, 0x00, 0x40, 0x01, 0x00, 0x00, 0x00],
        Action.FlushFileBuffers, Action.ReadFile,
        Action.WriteFile [0x00, 0x00, 0x00, 0x50, 0x01, 0x00, 0x00, 0x00],
        Action.FlushFileBuffers, Action.ReadFile] := by
  decide

/-- C4 (amended): every INIT is answered with the 8 bytes of the base address
that `GetModuleBaseAddress` finds in the target's module list at the moment the
INIT is served, whatever value `main` resolved during bootstrap; two INIT
responses are the same whenever the two lookups give the same address. -/
theorem C4_init_resolved_when_served (s : BrokerState) (p : Nat) (buffer tail : List Byte)
    (v : TargetView) (nt : Nat → Nat → NtOutcome)
    (hs : s.phase = Phase.active p buffer) :
    serveStep s (ServeEvent.frame
        { read := ReadResult.ok (Command.INIT :: tail), target := v, NtRead := nt }) =
      some { s with
        phase := Phase.active p (receive buffer (Command.INIT :: tail)),
        trace := s.trace ++
          [Action.WriteFile (InitResponse.bytes (GetModuleBaseAddress v modName)),
            Action.FlushFileBuffers] ++ [Action.ReadFile] } ∧
    (InitResponse.bytes (GetModuleBaseAddress v modName)).length = 8 ∧
    (∀ (buffer2 tail2 : List Byte) (v2 : TargetView) (nt2 : Nat → Nat → NtOutcome),
      GetModuleBaseAddress v2 modName = GetModuleBaseAddress v modName →
      serveCommand (receive buffer2 (Command.INIT :: tail2))
          { read := ReadResult.ok (Command.INIT :: tail2), target := v2, NtRead := nt2 } =
        serveCommand (receive buffer (Command.INIT :: tail))
          { read := ReadResult.ok (Command.INIT :: tail), target := v, NtRead := nt }) := by
  refine ⟨?_, length_toLE 8 _, ?_⟩
  · simp only [serveStep, hs, loopBody_served,
      serveCommand_INIT _ _ (getD_receive_cons buffer Command.INIT tail)]
    simp
  · intro buffer2 tail2 v2 nt2 h
    rw [serveCommand_INIT _ _ (getD_receive_cons buffer2 Command.INIT tail2),
      serveCommand_INIT _ _ (getD_receive_cons buffer Command.INIT tail), h]

/-- Witness of C4 (amended): an INIT served while the module sits at `0x150000000`,
in a Broker whose bootstrap resolved `0x140000000`. -/
theorem C4_init_resolved_when_served_witness :
    serveStep
        { phase := Phase.active 9 staleBuffer,
          handles := [Handle.clientPipe 9, Handle.capability 420],
          moduleBaseAddress := 0x140000000, trace := [Action.ReadFile] }
        (ServeEvent.frame
          { read := ReadResult.ok [Command.INIT], target := relocatedTarget,
            NtRead := scenarioNtRead }) =
      some
        { phase := Phase.active 9 (receive staleBuffer [Command.INIT]),
          handles := [Handle.clientPipe 9, Handle.capability 420],
          moduleBaseAddress := 0x140000000,
          trace := [Action.ReadFile,
            Action.WriteFile [0x00, 0x00, 0x00, 0x50, 0x01, 0x00, 0x00, 0x00],
            Action.FlushFileBuffers, Action.ReadFile] } :=
  (C4_init_resolved_when_served
    { phase := Phase.active 9 staleBuffer, handles := [Handle.clientPipe 9, Handle.capability 420],
      moduleBaseAddress := 0x140000000, trace := [Action.ReadFile] }
    9 staleBuffer [] relocatedTarget scenarioNtRead rfl).1

/-- Counterexample to C9: with `main.dll` at `0x140000000` the 8 bytes written in
answer to INIT are `00 00 00 40 01 00 00 00`, not `00 00 00 00 40 14 00 00`. -/
theorem C9_counterexample :
    GetModuleBaseAddress scenarioTarget modName = 0x140000000 ∧
    serveCommand [Command.INIT]
        { read := ReadResult.ok [Command.INIT], target := scenarioTarget, NtRead := scenarioNtRead } =
      [Action.WriteFile [0x00, 0x00, 0x00, 0x40, 0x01, 0x00, 0x00, 0x00]] ∧
    serveCommand [Command.INIT]
        { read := ReadResult.ok [Command.INIT], target := scenarioTarget, NtRead := scenarioNtRead } ≠
      [Action.WriteFile [0x00, 0x00, 0x00, 0x00, 0x40, 0x14, 0x00, 0x00]] := by
  decide

/-- C9 (amended): the INIT response is the 8-byte little-endian encoding of the
component base address (byte `i` is `base / 256 ^ i % 256`, and the bytes read
back give the address), and for the base address `0x140000000` the 8 bytes are
`00 00 00 40 01 00 00 00`. -/
theorem C9_init_response_bytes (buffer tail : List Byte) (v : TargetView)
    (nt : Nat → Nat → NtOutcome) (base : Nat)
    (hbase : GetModuleBaseAddress v modName = base) :
    serveCommand (receive buffer (Command.INIT :: tail))
        { read := ReadResult.ok (Command.INIT :: tail), target := v, NtRead := nt } =
      [Action.WriteFile (InitResponse.bytes base)] ∧
    (InitResponse.bytes base).length = 8 ∧
    (∀ i, i < 8 → (InitResponse.bytes base)[i]? = some (UInt8.ofNat (base / 256 ^ i % 256))) ∧
    fromLE (InitResponse.bytes base) = base ∧
    (base = 0x140000000 →
      InitResponse.bytes base = [0x00, 0x00, 0x00, 0x40, 0x01, 0x00, 0x00, 0x00]) := by
  refine ⟨?_, length_toLE 8 _, ?_, ?_, ?_⟩
  · rw [serveCommand_INIT _ _ (getD_receive_cons buffer Command.INIT tail), hbase]
  · intro i hi
    exact getElem?_toLE 8 base i hi
  · have hlt : base < 2 ^ 64 := hbase ▸ GetModuleBaseAddress_lt v modName
    unfold InitResponse.bytes
    rw [fromLE_toLE]
    exact Nat.mod_eq_of_lt (by simpa using hlt)
  · intro h
    subst h
    decide

/-- Witness of C9 (amended): the INIT of the scenario. -/
theorem C9_init_response_bytes_witness :
    serveCommand (receive staleBuffer [Command.INIT])
        { read := ReadResult.ok [Command.INIT], target := scenarioTarget, NtRead := scenarioNtRead } =
      [Action.WriteFile [0x00, 0x00, 0x00, 0x40, 0x01, 0x00, 0x00, 0x00]] :=
  (C9_init_response_bytes staleBuffer [] scenarioTarget scenarioNtRead 0x140000000 (by decide)).1


theorem HandlePythonConnection_failed (buffer : List Byte) (t : Turn) (rest : List Turn)
    (ht : t.read = ReadResult.failed) :
    HandlePythonConnection buffer (t :: rest) = [Action.ReadFile, Action.DisconnectNamedPipe] := by
  simp [HandlePythonConnection, loopBody, ht]

theorem HandlePythonConnection_cut (t : Turn) (rest : List Turn) (ht : t.read = ReadResult.failed) :
    ∀ (pre : List Turn) (b : List Byte),
      HandlePythonConnection b (pre ++ t :: rest) = HandlePythonConnection b (pre ++ [t]) := by
  intro pre
  induction pre with
  | nil =>
    intro b
    simp [HandlePythonConnection_failed _ _ _ ht]
  | cons x xs ih =>
    intro b
    simp only [List.cons_append, HandlePythonConnection]
    rcases h : loopBody b x with ⟨acts, _ | b2⟩
    · rfl
    · exact congrArg (fun l => Action.ReadFile :: (acts ++ l)) (ih b2)

/-- Counterexample to C5: a `ReadFile` that succeeds with zero bytes does not end
the session; the loop reads again and serves the INIT that follows, and the
pipe has not been disconnected. -/
theorem C5_counterexample :
    HandlePythonConnection staleBuffer
        [{ read := ReadResult.ok [], target := scenarioTarget, NtRead := scenarioNtRead },
         { read := ReadResult.ok [Command.INIT], target := scenarioTarget,
           NtRead := scenarioNtRead }] =
      [Action.ReadFile, Action.ReadFile,
        Action.WriteFile [0x00, 0x00, 0x00, 0x40, 0x01, 0x00, 0x00, 0x00],
        Action.FlushFileBuffers, Action.ReadFile] := by
  decide

/-- C5 (amended): as soon as a `ReadFile` of a command frame fails the session
ends: the loop stops, the pipe is disconnected, no later frame is read or
served whatever the client would still send, and `main` closes the pipe and is
back at the top of its accept loop.  A `ReadFile` that succeeds with zero bytes
does not end the session: nothing is served for it and the next frame is
read with the buffer unchanged. -/
theorem C5_session_ends_on_failed_read (buffer : List Byte) (t : Turn) (rest : List Turn)
    (s : BrokerState) (p : Nat)
    (ht : t.read = ReadResult.failed) (hs : s.phase = Phase.active p buffer) :
    HandlePythonConnection buffer (t :: rest) = [Action.ReadFile, Action.DisconnectNamedPipe] ∧
    (∀ (pre : List Turn) (b : List Byte),
      HandlePythonConnection b (pre ++ t :: rest) = HandlePythonConnection b (pre ++ [t])) ∧
    serveStep s (ServeEvent.frame t) =
      some { s with
        phase := Phase.idle,
        handles := CloseHandle (Handle.clientPipe p) s.handles,
        trace := s.trace ++ [Action.DisconnectNamedPipe] } ∧
    (∀ (v : TargetView) (nt : Nat → Nat → NtOutcome),
      HandlePythonConnection buffer ({ read := ReadResult.ok [], target := v, NtRead := nt } :: rest) =
        Action.ReadFile :: HandlePythonConnection buffer rest) := by
  refine ⟨HandlePythonConnection_failed _ _ _ ht, HandlePythonConnection_cut t rest ht, ?_, ?_⟩
  · simp [serveStep, hs, loopBody, ht]
  · intro v nt
    simp [HandlePythonConnection, loopBody, bytesRead, receive]

/-- Witness of C5 (amended): the client goes away after one INIT; the READ it
would have sent next is never looked at. -/
theorem C5_session_ends_on_failed_read_witness :
    HandlePythonConnection staleBuffer
        ([{ read := ReadResult.ok [Command.INIT], target := scenarioTarget,
            NtRead := scenarioNtRead }] ++
          { read := ReadResult.failed, target := scenarioTarget, NtRead := scenarioNtRead } ::
          [{ read := ReadResult.ok scenarioReadFrame, target := scenarioTarget,
             NtRead := scenarioNtRead }]) =
      HandlePythonConnection staleBuffer
        ([{ read := ReadResult.ok [Command.INIT], target := scenarioTarget,
            NtRead := scenarioNtRead }] ++
          [{ read := ReadResult.failed, target := scenarioTarget, NtRead := scenarioNtRead }]) :=
  (C5_session_ends_on_failed_read staleBuffer
    { read := ReadResult.failed, target := scenarioTarget, NtRead := scenarioNtRead }
    [{ read := ReadResult.ok scenarioReadFrame, target := scenarioTarget, NtRead := scenarioNtRead }]
    { phase := Phase.active 9 staleBuffer, handles := [Handle.clientPipe 9, Handle.capability 420],
      moduleBaseAddress := 0x140000000, trace := [Action.ReadFile] }
    9 rfl rfl).2.1
    [{ read := ReadResult.ok [Command.INIT], target := scenarioTarget, NtRead := scenarioNtRead }]
    staleBuffer

theorem fieldAt_take (b : List Byte) (off w n : Nat) (h : off + w ≤ n) :
    fieldAt (b.take n) off w = fieldAt b off w := by
  unfold fieldAt
  rw [List.drop_take, List.take_take]
  congr 2
  omega

theorem serveCommand_take (b : List Byte) (t : Turn) :
    serveCommand (b.take 13) t = serveCommand b t := by
  have h0 : (b.take 13).getD 0 0 = b.getD 0 0 := by
    cases b <;> simp
  have ha : fieldAt (b.take 13) 1 8 = fieldAt b 1 8 := fieldAt_take b 1 8 13 (by norm_num)
  have hs : fieldAt (b.take 13) 9 4 = fieldAt b 9 4 := fieldAt_take b 9 4 13 (by norm_num)
  unfold serveCommand ReadRequest.overlay
  simp only [h0, ha, hs]

theorem serveCommand_counts (b : List Byte) (t : Turn) :
    ((serveCommand b t).filter Action.isWriteFile).length ≤ 1 ∧
    ((serveCommand b t).filter Action.isNtRead).length ≤ 1 := by
  unfold serveCommand WriteFile
  simp only
  split
  · simp [Action.isWriteFile, Action.isNtRead]
  · split
    · split <;> simp [Action.isWriteFile, Action.isNtRead]
    · simp

/-- C10: a frame whose first byte is neither INIT nor READ makes the Broker write
nothing and read no memory; it flushes and reads the next frame of the same
session.  For every frame at most one response is written and at most one
memory read is made per channel read, what is served depends on the first
13 bytes of the buffer only, and the command byte of a later frame is the first
byte that later read delivers, so bytes delivered after the frame are never
taken as a command. -/
theorem C10_unknown_command_ignored (buffer tail : List Byte) (c : Byte) (v : TargetView)
    (nt : Nat → Nat → NtOutcome) (rest : List Turn) (s : BrokerState) (p : Nat)
    (hinit : c ≠ Command.INIT) (hread : c ≠ Command.READ)
    (hs : s.phase = Phase.active p buffer) :
    HandlePythonConnection buffer
        ({ read := ReadResult.ok (c :: tail), target := v, NtRead := nt } :: rest) =
      Action.ReadFile :: Action.FlushFileBuffers ::
        HandlePythonConnection (receive buffer (c :: tail)) rest ∧
    serveStep s (ServeEvent.frame { read := ReadResult.ok (c :: tail), target := v, NtRead := nt }) =
      some { s with
        phase := Phase.active p (receive buffer (c :: tail)),
        trace := s.trace ++ [Action.FlushFileBuffers] ++ [Action.ReadFile] } ∧
    (∀ (b : List Byte) (t : Turn),
      (((loopBody b t).1).filter Action.isWriteFile).length ≤ 1 ∧
      (((loopBody b t).1).filter Action.isNtRead).length ≤ 1) ∧
    (∀ (b1 b2 : List Byte) (t : Turn), b1.take 13 = b2.take 13 →
      serveCommand b1 t = serveCommand b2 t) ∧
    (∀ (b : List Byte) (c2 : Byte) (tail2 : List Byte),
      (receive b (c2 :: tail2)).getD 0 0 = c2) := by
  have hcmd := getD_receive_cons buffer c tail
  have hnone : serveCommand (receive buffer (c :: tail))
      { read := ReadResult.ok (c :: tail), target := v, NtRead := nt } = [] := by
    unfold serveCommand
    simp only [hcmd, if_neg hinit, if_neg hread]
  refine ⟨?_, ?_, ?_, ?_, getD_receive_cons⟩
  · rw [HandlePythonConnection_served, hnone]
    rfl
  · simp only [serveStep, hs, loopBody_served, hnone]
    simp
  · intro b t
    unfold loopBody
    split
    · simp [Action.isWriteFile, Action.isNtRead]
    · simp only
      split
      · simp
      · have hc := serveCommand_counts (receive b ‹List Byte›) t
        simpa [List.filter_append, Action.isWriteFile, Action.isNtRead] using hc
  · intro b1 b2 t h
    rw [← serveCommand_take b1 t, ← serveCommand_take b2 t, h]

/-- Witness of C10: one channel read delivers an unknown command byte followed by
an INIT byte; nothing is written for either. -/
theorem C10_unknown_command_ignored_witness :
    HandlePythonConnection staleBuffer
        [{ read := ReadResult.ok [0x07, Command.INIT], target := scenarioTarget,
           NtRead := scenarioNtRead }] =
      [Action.ReadFile, Action.FlushFileBuffers, Action.ReadFile] :=
  (C10_unknown_command_ignored staleBuffer [Command.INIT] 0x07 scenarioTarget scenarioNtRead []
    { phase := Phase.active 9 staleBuffer, handles := [Handle.clientPipe 9, Handle.capability 420],
      moduleBaseAddress := 0x140000000, trace := [Action.ReadFile] }
    9 (by decide) (by decide) rfl).1


theorem capability_mem_CloseHandle (cap p : Nat) (hs : List Handle) :
    Handle.capability cap ∈ CloseHandle (Handle.clientPipe p) hs ↔ Handle.capability cap ∈ hs := by
  unfold CloseHandle
  exact List.mem_erase_of_ne (by simp)

theorem serveStep_keeps_serving (cap : Nat) (s s2 : BrokerState) (e : ServeEvent)
    (he : e ≠ ServeEvent.created none) (hstep : serveStep s e = some s2) :
    s2.phase.serving = true ∧
    (Handle.capability cap ∈ s.handles → Handle.capability cap ∈ s2.handles) := by
  cases e with
  | created h =>
    cases h with
    | none => exact absurd rfl he
    | some q =>
      cases hp : s.phase <;> simp [serveStep, hp] at hstep
      subst hstep
      simp [Phase.serving]
  | connected ok stack =>
    cases hp : s.phase <;> simp [serveStep, hp] at hstep
    cases ok
    · simp at hstep
      subst hstep
      simp [Phase.serving, capability_mem_CloseHandle]
    · simp at hstep
      subst hstep
      simp [Phase.serving]
  | frame t =>
    cases hp : s.phase <;> simp only [serveStep, hp] at hstep <;> try cases hstep
    rcases hl : loopBody ‹List Byte› t with ⟨acts, _ | b2⟩
    · rw [hl] at hstep
      simp at hstep
      subst hstep
      simp [Phase.serving, capability_mem_CloseHandle]
    · rw [hl] at hstep
      simp at hstep
      subst hstep
      simp [Phase.serving]

theorem serveLoop_keeps_serving (cap : Nat) : ∀ (evs : List ServeEvent) (s : BrokerState),
    (∀ e ∈ evs, e ≠ ServeEvent.created none) → s.phase.serving = true →
    Handle.capability cap ∈ s.handles →
    (serveLoop s evs).phase.serving = true ∧ Handle.capability cap ∈ (serveLoop s evs).handles := by
  intro evs
  induction evs with
  | nil => intro s _ hserv hcap; exact ⟨hserv, hcap⟩
  | cons e es ih =>
    intro s hall hserv hcap
    unfold serveLoop
    cases hstep : serveStep s e with
    | none => exact ⟨hserv, hcap⟩
    | some s2 =>
      have hk := serveStep_keeps_serving cap s s2 e (hall e (List.mem_cons_self _ _)) hstep
      exact ih s2 (fun x hx => hall x (List.mem_cons_of_mem _ hx)) hk.1 (hk.2 hcap)

/-- C6: no session-level event takes the Broker out of its serve loop.  A failed
accept and a failed read (a disconnect included) each close the client pipe
and put the Broker back at the top of the loop, about to create the client
pipe and accept again, with the relayed capability still open; every
session-level step ends inside the serve loop with the capability open; and so
does every run of the loop, however long, in which creating the client pipe
never fails. -/
theorem C6_serve_loop_survives_sessions (s : BrokerState) (cap : Nat)
    (hserv : s.phase.serving = true) (hcap : Handle.capability cap ∈ s.handles) :
    (∀ (p : Nat) (stack : List Byte), s.phase = Phase.listening p →
      serveStep s (ServeEvent.connected false stack) =
        some { s with phase := Phase.idle, handles := CloseHandle (Handle.clientPipe p) s.handles } ∧
      Handle.capability cap ∈ CloseHandle (Handle.clientPipe p) s.handles) ∧
    (∀ (p : Nat) (buffer : List Byte) (t : Turn), s.phase = Phase.active p buffer →
      t.read = ReadResult.failed →
      serveStep s (ServeEvent.frame t) =
        some { s with phase := Phase.idle, handles := CloseHandle (Handle.clientPipe p) s.handles,
                      trace := s.trace ++ [Action.DisconnectNamedPipe] } ∧
      Handle.capability cap ∈ CloseHandle (Handle.clientPipe p) s.handles) ∧
    (∀ (e : ServeEvent) (s2 : BrokerState), e.sessionLevel = true → serveStep s e = some s2 →
      s2.phase.serving = true ∧ Handle.capability cap ∈ s2.handles) ∧
    (∀ evs : List ServeEvent, (∀ e ∈ evs, e ≠ ServeEvent.created none) →
      (serveLoop s evs).phase.serving = true ∧
      Handle.capability cap ∈ (serveLoop s evs).handles) := by
  refine ⟨?_, ?_, ?_, ?_⟩
  · intro p stack hp
    exact ⟨by simp [serveStep, hp], (capability_mem_CloseHandle cap p s.handles).mpr hcap⟩
  · intro p buffer t hp ht
    exact ⟨by simp [serveStep, hp, loopBody, ht],
      (capability_mem_CloseHandle cap p s.handles).mpr hcap⟩
  · intro e s2 he hstep
    have hne : e ≠ ServeEvent.created none := by
      intro h
      rw [h] at he
      simp [ServeEvent.sessionLevel] at he
    have hk := serveStep_keeps_serving cap s s2 e hne hstep
    exact ⟨hk.1, hk.2 hcap⟩
  · intro evs hall
    exact serveLoop_keeps_serving cap evs s hall hserv hcap


/-- Witness of C6: a failed accept, then a client that connects and disconnects,
then the next client pipe; the Broker is listening again and still holds the
capability. -/
theorem C6_serve_loop_survives_sessions_witness :
    (serveLoop
        { phase := Phase.listening 9, handles := [Handle.clientPipe 9, Handle.capability 420],
          moduleBaseAddress := 0x140000000, trace := [] }
        [ServeEvent.connected false staleBuffer, ServeEvent.created (some 10),
         ServeEvent.connected true staleBuffer,
         ServeEvent.frame
           { read := ReadResult.failed, target := scenarioTarget, NtRead := scenarioNtRead },
         ServeEvent.created (some 11)]).phase.serving = true ∧
    Handle.capability 420 ∈
      (serveLoop
        { phase := Phase.listening 9, handles := [Handle.clientPipe 9, Handle.capability 420],
          moduleBaseAddress := 0x140000000, trace := [] }
        [ServeEvent.connected false staleBuffer, ServeEvent.created (some 10),
         ServeEvent.connected true staleBuffer,
         ServeEvent.frame
           { read := ReadResult.failed, target := scenarioTarget, NtRead := scenarioNtRead },
         ServeEvent.created (some 11)]).handles :=
  (C6_serve_loop_survives_sessions
    { phase := Phase.listening 9, handles := [Handle.clientPipe 9, Handle.capability 420],
      moduleBaseAddress := 0x140000000, trace := [] }
    420 rfl (by decide)).2.2.2 _
    (by
      intro e he
      simp only [List.mem_cons, List.mem_singleton, List.not_mem_nil, or_false] at he
      rcases he with h | h | h | h | h <;> rw [h] <;> simp)

theorem ReceiveHandleFromForwarder_closes_pipe (env : RelayEnv) :
    (ReceiveHandleFromForwarder env []).2 = [] := by
  unfold ReceiveHandleFromForwarder
  split
  · rfl
  · split
    · simp [CloseHandle]
    · split
      · simp [CloseHandle]
      · split <;> simp [CloseHandle]

theorem HandleForwarder_main_closes_handles (env : ForwarderEnv) (n : Nat)
    (h : (HandleForwarder.main env).exit = Exit.code n) :
    (HandleForwarder.main env).handles = [] := by
  unfold HandleForwarder.main at h ⊢
  by_cases h1 : env.argc < 2
  · simp [h1]
  · cases h2 : env.stoul with
    | none => simp [h1, h2]
    | some parsed =>
      by_cases h3 : parsed % 4294967296 = 0
      · simp [h1, h2, h3]
      · cases h4 : pollTarget env.processes with
        | none => simp [h1, h2, h3, h4] at h
        | some pid =>
          cases h5 : env.OpenTarget with
          | none => simp [h1, h2, h3, h4, h5]
          | some ht =>
            cases h6 : env.OpenBroker with
            | none => simp [h1, h2, h3, h4, h5, h6, CloseHandle]
            | some hb =>
              cases h7 : env.DuplicateHandle with
              | none => simp [h1, h2, h3, h4, h5, h6, h7, CloseHandle]
              | some hd =>
                cases h8 : connectPipe env.CreateFileA with
                | none => simp [h1, h2, h3, h4, h5, h6, h7, h8] at h
                | some hp => simp [h1, h2, h3, h4, h5, h6, h7, h8, CloseHandle]

theorem MemoryBridge_main_bootstrap_failure (env : BrokerEnv)
    (h : env.NtReadResolved = false ∨ (ReceiveHandleFromForwarder env.relay []).1 = 0) :
    (MemoryBridge.main env).phase = Phase.exited 1 ∧ (MemoryBridge.main env).handles = [] := by
  unfold MemoryBridge.main
  by_cases h1 : env.NtReadResolved = false
  · simp [h1]
  · have h2 : (ReceiveHandleFromForwarder env.relay []).1 = 0 := h.resolve_left h1
    simp [h1, h2, ReceiveHandleFromForwarder_closes_pipe]

/-- C7 (the code at the failing input): when `CreateNamedPipeA` fails in the serve
loop, `main` of the Broker returns 1 while the relayed capability `0x1A4` is
still open; the client pipe of the earlier session was closed. -/
theorem C7_broker_return_leaves_capability_open :
    (MemoryBridge.main pipeFailureRun).phase = Phase.exited 1 ∧
    (MemoryBridge.main pipeFailureRun).handles = [Handle.capability 0x1A4] := by
  decide

/-- C8 (the code at the failing input): when the write of the relayed value to
the relay pipe fails, the Forwarder closes its handles and returns 0, with
nothing relayed. -/
theorem C8_forwarder_returns_zero_after_failed_write :
    HandleForwarder.main writeFailureRun =
      { exit := Exit.code 0, handles := [], relayed := none } := by
  decide

end MemScope
